import Mathlib

/-!
Verification of the promptsub template library: a shallow embedding of the
parser (`Template._parse_and_validate`, `Variable.append`/`close`), the
substitution engine (`Template.substitute`, `Variable.substitute`,
`Template._substitute_all_components`), the variable-requirement traversal
(`Template.variable_keys`), and the facade (`Prompt.substitute`,
`Prompt.variables`, `_validate_params`).

Python strings are modelled as `List Char` (`Text`), Python dicts of
parameters as association lists, Python sets as `Finset Text`.  The parser
recursion (which in the source recurses on strictly shorter texts) is driven
by a fuel parameter; `parseTemplate` supplies fuel `length + 1`, which is
larger than the recursion depth ever reached.  The component tree is a
mutual inductive so that substitution and the requirement traversal are
structurally recursive total functions.  Exceptions are modelled with
`Except`: `VariableError` for the internal unsatisfied-variable signal,
`PromptSyntaxError` for parse errors.
-/

abbrev Text := List Char

instance {ε α : Type} [DecidableEq ε] [DecidableEq α] : DecidableEq (Except ε α) :=
  fun a b =>
    match a, b with
    | .error e, .error e' =>
      if h : e = e' then .isTrue (by rw [h]) else .isFalse (fun hh => h (Except.error.inj hh))
    | .error _, .ok _ => .isFalse Except.noConfusion
    | .ok _, .error _ => .isFalse Except.noConfusion
    | .ok x, .ok y =>
      if h : x = y then .isTrue (by rw [h]) else .isFalse (fun hh => h (Except.ok.inj hh))

/-! ### Special characters (special_chatacters.py) -/

def TEMPLATE_OPENING : Char := '['

def TEMPLATE_CLOSING : Char := ']'

def TEMPLATE_SEPARATOR : Char := '|'

def VARIABLE_OPENING : Char := '{'

def VARIABLE_CLOSING : Char := '}'

def MUTE_OPTION : Char := '~'

def EQ_OPTION : Char := '='

/-- `VARIABLE_NAME_SAFE = ascii_letters + digits + "_"`. -/
def variableNameSafe (c : Char) : Bool :=
  c.isAlpha || c.isDigit || c == '_'

/-- membership in the `VariableOptions` named tuple `(MUTE, EQ)`. -/
def isVariableOption (c : Char) : Bool :=
  c == MUTE_OPTION || c == EQ_OPTION

/-- membership in `characters_to_check = sc.TEMPLATE + sc.VARIABLE`. -/
def isCharacterToCheck (c : Char) : Bool :=
  c == TEMPLATE_OPENING || c == TEMPLATE_CLOSING || c == TEMPLATE_SEPARATOR ||
    c == VARIABLE_OPENING || c == VARIABLE_CLOSING

/-! ### Errors (errors.py) -/

/-- `SyntaxErrorDetails`: the text being pointed at and a 1-based offset.
(`filename`/`lineno` are constant and omitted.) -/
structure SyntaxErrorDetails where
  text : Text
  offset : Nat
deriving Repr, DecidableEq

/-- `PromptSyntaxError`: raised with a message and optionally details.
When the source raises `PromptSyntaxError(message)` without details, the
`details` field here is `none`. -/
structure PromptSyntaxError where
  message : String
  details : Option SyntaxErrorDetails
deriving Repr, DecidableEq

/-- `VariableError`: the internal unsatisfied-variable signal. -/
structure VariableError where
deriving Repr, DecidableEq

/-- `ParametersTypeError`: parameters violate the expected typing. -/
structure ParametersTypeError where
deriving Repr, DecidableEq

/-- Result type of parsing.  `outOfFuel` is the fuel-exhaustion marker of the
embedding; it is never produced at the fuel supplied by `parseTemplate`
(the source recursion is on strictly shorter texts). -/
inductive ParseError where
  | syntaxError (e : PromptSyntaxError)
  | outOfFuel
deriving Repr, DecidableEq

/-! ### Parameters -/

/-- Validated parameters: a string-to-string mapping (Python `dict[str, str]`
keeps keys unique; lookup takes the first binding). -/
abbrev Params := List (Text × Text)

/-- `params.get(key, default)` for `default = ""` made explicit by callers. -/
def dictGet? (params : Params) (k : Text) : Option Text :=
  match params with
  | [] => Option.none
  | (k', v) :: rest => if k' = k then Option.some v else dictGet? rest k

/-! ### Variable (variable.py) -/

/-- A closed `Variable`: key, optional required-value, mute flag and its
span `[start_index, end_index)` in the owning template's raw text. -/
structure Variable where
  startIndex : Nat
  endIndex : Nat
  muted : Bool
  key : Text
  requiredValue : Option Text
deriving Repr, DecidableEq

/-- Python truthiness test `self._required_value and result != self._required_value`:
`None` and the empty string are falsy. -/
def pyRequiredMismatch (requiredValue : Option Text) (result : Text) : Bool :=
  match requiredValue with
  | Option.some rv => decide (rv ≠ []) && decide (result ≠ rv)
  | Option.none => false

/-- `Variable.substitute`: look the key up with default `""`; empty result or
required-value mismatch raises `VariableError`; a muted variable yields `""`. -/
def Variable.substitute (v : Variable) (params : Params) : Except VariableError Text :=
  let result := (dictGet? params v.key).getD []
  if result = [] then .error ⟨⟩
  else if pyRequiredMismatch v.requiredValue result then .error ⟨⟩
  else if v.muted then .ok [] else .ok result

/-- Which buffer `Variable._input_characters` currently aliases. -/
inductive AppendTarget where
  | keyCharacters
  | requiredValueCharacters
deriving Repr, DecidableEq

/-- A `Variable` under construction during parsing. -/
structure VarBuilder where
  startIndex : Nat
  muted : Bool
  target : AppendTarget
  keyChars : Text
  rvChars : Text
deriving Repr, DecidableEq

/-- `Variable(start_index=i)` followed by `__attrs_post_init__` (the append
target starts at the key buffer). -/
def VarBuilder.init (i : Nat) : VarBuilder :=
  ⟨i, false, .keyCharacters, [], []⟩

/-- The buffer `self._input_characters` currently aliases. -/
def VarBuilder.inputChars (b : VarBuilder) : Text :=
  match b.target with
  | .keyCharacters => b.keyChars
  | .requiredValueCharacters => b.rvChars

/-- `Variable._raise_detailed_syntax_error`: the details are built from a list
of one-character fragments (opening delimiter, mute marker or empty string,
each key character, the offending character or empty string); the offset is
the NUMBER OF FRAGMENTS of that list, empty fragments included. -/
def VarBuilder.errorDetails (b : VarBuilder) (character : Option Char) : SyntaxErrorDetails :=
  let fragments : List Text :=
    [[VARIABLE_OPENING], if b.muted then [MUTE_OPTION] else []]
      ++ b.keyChars.map (fun c => [c])
      ++ [character.elim [] (fun c => [c])]
  ⟨fragments.flatten, fragments.length⟩

/-- `Variable._mute`: accepted only while the current buffer is empty and the
variable is not yet muted. -/
def VarBuilder.muteOp (b : VarBuilder) : Except PromptSyntaxError VarBuilder :=
  if b.inputChars.length = 0 ∧ b.muted = false then
    .ok { b with muted := true }
  else
    .error ⟨"A mute symbol is only allowed in the beginning",
            Option.some (b.errorDetails (Option.some MUTE_OPTION))⟩

/-- `Variable._process_option`. -/
def VarBuilder.processOption (b : VarBuilder) (c : Char) : Except PromptSyntaxError VarBuilder :=
  if c = MUTE_OPTION then b.muteOp
  else if c = EQ_OPTION then .ok { b with target := .requiredValueCharacters }
  else .ok b

/-- `Variable.append`: required-value text is unrestricted; key characters are
checked against the options and the safe alphabet. -/
def VarBuilder.append (b : VarBuilder) (c : Char) : Except PromptSyntaxError VarBuilder :=
  if b.target = AppendTarget.requiredValueCharacters then
    .ok { b with rvChars := b.rvChars ++ [c] }
  else if isVariableOption c then
    b.processOption c
  else if variableNameSafe c = false then
    .error ⟨"Char not allowed in variable key",
            Option.some (b.errorDetails (Option.some c))⟩
  else
    .ok { b with keyChars := b.keyChars ++ [c] }

/-- `Variable.close(end_index)`, i.e. `_before_close`:
`_set_required_value` first, then `_set_key`. -/
def VarBuilder.close (b : VarBuilder) (endIndex : Nat) : Except PromptSyntaxError Variable :=
  match (if b.rvChars.length = 0 then
           (if b.target = AppendTarget.requiredValueCharacters then
              .error ⟨"Required value can not be empty",
                      Option.some (b.errorDetails Option.none)⟩
            else .ok Option.none)
         else .ok (Option.some b.rvChars) :
         Except PromptSyntaxError (Option Text)) with
  | .error e => .error e
  | .ok requiredValue =>
    if b.keyChars.length = 0 then
      .error ⟨"Variable key can not be empty", Option.none⟩
    else
      .ok ⟨b.startIndex, endIndex, b.muted, b.keyChars, requiredValue⟩

/-! ### The parsed component tree (template.py data model) -/

mutual

/-- A parsed `Template`: its (possibly separator-truncated) raw text, its
span in the parent's text (`none` for root and alternative templates), its
components in order of appearance, and its alternative. -/
inductive Template : Type where
  | mk (inputText : Text) (startIndex : Option Nat) (endIndex : Option Nat)
       (components : ComponentList) (alternative : OptionalTemplate) : Template
deriving Repr

/-- `Template._components`, in order of appearance. -/
inductive ComponentList : Type where
  | nil : ComponentList
  | cons (c : Component) (rest : ComponentList) : ComponentList
deriving Repr

/-- A `PromptComponent` saved in `_components`: a `Variable` or a nested
`Template`. -/
inductive Component : Type where
  | var (v : Variable) : Component
  | tmpl (t : Template) : Component
deriving Repr

/-- `Template._alternative` (a `Template` or `None`). -/
inductive OptionalTemplate : Type where
  | none : OptionalTemplate
  | some (t : Template) : OptionalTemplate
deriving Repr

end

def Template.inputText : Template → Text
  | .mk it _ _ _ _ => it

def Template.startIndex : Template → Option Nat
  | .mk _ si _ _ _ => si

def Template.endIndex : Template → Option Nat
  | .mk _ _ ei _ _ => ei

def Template.components : Template → ComponentList
  | .mk _ _ _ comps _ => comps

def Template.alternative : Template → OptionalTemplate
  | .mk _ _ _ _ alt => alt

def Component.startIndex : Component → Option Nat
  | .var v => Option.some v.startIndex
  | .tmpl t => t.startIndex

def Component.endIndex : Component → Option Nat
  | .var v => Option.some v.endIndex
  | .tmpl t => t.endIndex

def ComponentList.ofList : List Component → ComponentList
  | [] => .nil
  | c :: rest => .cons c (ofList rest)

/-- Setting `start_index` at creation and `end_index` at close time for a
nested template. -/
def Template.withIndices : Template → Nat → Nat → Template
  | .mk it _ _ comps alt, s, e => .mk it (Option.some s) (Option.some e) comps alt

/-- `Template._variables`: the `Variable` components, in order (the source
appends each closed variable to both `_components` and `_variables`). -/
def ComponentList.directVariables : ComponentList → List Variable
  | .nil => []
  | .cons (.var v) rest => v :: rest.directVariables
  | .cons (.tmpl _) rest => rest.directVariables

/-- `Template._templates`: the nested templates, in order. -/
def ComponentList.directTemplates : ComponentList → List Template
  | .nil => []
  | .cons (.var _) rest => rest.directTemplates
  | .cons (.tmpl t) rest => t :: rest.directTemplates

/-! ### Substitution (template.py) -/

/-- Python slice `text[:i]` where `i` may be `None` (`text[:None]` is the
whole text). -/
def pySliceTo (text : Text) : Option Nat → Text
  | Option.none => text
  | Option.some n => text.take n

/-- Python slice `text[i:]` where `i` may be `None` (`text[None:]` is the
whole text). -/
def pySliceFrom (text : Text) : Option Nat → Text
  | Option.none => text
  | Option.some n => text.drop n

/-- The list comprehension
`[variable.substitute(params) for variable in self._variables]`:
the first `VariableError` raised aborts the whole list. -/
def substituteVariables (vars : List Variable) (params : Params) :
    Except VariableError (List Text) :=
  match vars with
  | [] => .ok []
  | v :: rest =>
    match v.substitute params with
    | .error e => .error e
    | .ok s =>
      match substituteVariables rest params with
      | .error e => .error e
      | .ok ss => .ok (s :: ss)

mutual

/-- `Template.substitute`: try all direct variables; on `VariableError` fall
back to the alternative (or `""`); otherwise rebuild the text from the
components (`_substitute_all_components`). -/
def Template.substitute (t : Template) (params : Params) : Except VariableError Text :=
  match t with
  | .mk inputText _ _ comps alt =>
    match substituteVariables comps.directVariables params with
    | .error _ => alt.substituteAlternative params
    | .ok variableSubstitutions =>
      match comps.substituteAll params (inputText, variableSubstitutions) with
      | .error e => .error e
      | .ok r => .ok r.1

/-- `if self._alternative: return self._alternative.substitute(params);
return ""`. -/
def OptionalTemplate.substituteAlternative (o : OptionalTemplate) (params : Params) :
    Except VariableError Text :=
  match o with
  | .some a => a.substitute params
  | .none => .ok []

/-- One step of the loop body of `_substitute_all_components`: a nested
template substitutes recursively; a variable pops the last element of
`variable_substitutions`. -/
def Component.substituteOne (c : Component) (params : Params) (subs : List Text) :
    Except VariableError (Text × List Text) :=
  match c with
  | .tmpl inner =>
    match inner.substitute params with
    | .error e => .error e
    | .ok r => .ok (r, subs)
  | .var _ => .ok (subs.getLastD [], subs.dropLast)

/-- `for component in reversed(self._components): ...` with the running text
and the remaining `variable_substitutions` threaded through.  Recursing on
the tail first makes the components be processed exactly in reversed
(right-to-left) order, each replacing `text[component.start_index :
component.end_index]` by its substituted text. -/
def ComponentList.substituteAll (comps : ComponentList) (params : Params)
    (acc : Text × List Text) : Except VariableError (Text × List Text) :=
  match comps with
  | .nil => .ok acc
  | .cons c rest =>
    match rest.substituteAll params acc with
    | .error e => .error e
    | .ok ts =>
      match c.substituteOne params ts.2 with
      | .error e => .error e
      | .ok cs =>
        .ok (pySliceTo ts.1 c.startIndex ++ cs.1 ++ pySliceFrom ts.1 c.endIndex, cs.2)

end

/-! ### Variable-requirement traversal (`Template.variable_keys`) -/

/-- `RequiredAndOptionalVariables` (types.py): a pair of Python sets. -/
structure RequiredAndOptionalVariables where
  required : Finset Text
  optional : Finset Text
deriving DecidableEq

/-- The inner loop `for child_variable_keys in child_template.variable_keys:
optional.update(required); optional.update(optional)` as a fold. -/
def raoUnion (entries : List RequiredAndOptionalVariables) : Finset Text :=
  entries.foldl (fun acc e => acc ∪ e.required ∪ e.optional) ∅

mutual

/-- `Template.variable_keys`: one entry per alternative-chain node; required
from this level's `_variables`, optional from all nested templates. -/
def Template.variableKeys (t : Template) : List RequiredAndOptionalVariables :=
  match t with
  | .mk _ _ _ comps alt =>
    ⟨(comps.directVariables.map Variable.key).toFinset, comps.childrenOptional⟩ ::
      alt.alternativeKeys

/-- `if self._alternative: result += self._alternative.variable_keys`. -/
def OptionalTemplate.alternativeKeys (o : OptionalTemplate) :
    List RequiredAndOptionalVariables :=
  match o with
  | .some a => a.variableKeys
  | .none => []

/-- The loop `for child_template in self._templates: ...` building `optional`
(set-union is order-insensitive, so it is rendered per component). -/
def ComponentList.childrenOptional (comps : ComponentList) : Finset Text :=
  match comps with
  | .nil => ∅
  | .cons c rest => c.componentOptional ∪ rest.childrenOptional

/-- A variable component contributes nothing; a nested template contributes
the union of required and optional over all its entries. -/
def Component.componentOptional (c : Component) : Finset Text :=
  match c with
  | .var _ => ∅
  | .tmpl t => raoUnion t.variableKeys

end

mutual

/-- The alternative chain starting at a template, in chain order. -/
def Template.chainNodes (t : Template) : List Template :=
  match t with
  | .mk it si ei comps alt => Template.mk it si ei comps alt :: alt.chainNodesAlt

def OptionalTemplate.chainNodesAlt (o : OptionalTemplate) : List Template :=
  match o with
  | .some a => a.chainNodes
  | .none => []

end

/-- The single `RequiredAndOptionalVariables` entry contributed by one
chain node. -/
def Template.nodeEntry (t : Template) : RequiredAndOptionalVariables :=
  ⟨(t.components.directVariables.map Variable.key).toFinset,
   t.components.childrenOptional⟩

/-! ### The parser (`Template._parse_and_validate`) -/

/-- A nested `Template` under construction: start offset and the raw
characters captured so far. -/
structure TmplBuilder where
  startIndex : Nat
  inputCharacters : Text
deriving Repr, DecidableEq

/-- The loop variable `current_component`. -/
inductive CurrentComponent where
  | none
  | tmpl (b : TmplBuilder)
  | var (b : VarBuilder)
deriving Repr, DecidableEq

/-- The loop state when the `for` loop over the characters ends (normally
or by `break` at a separator). -/
structure LoopOutcome where
  components : List Component
  alternative : OptionalTemplate
  inputText : Text
  current : CurrentComponent

/-- The `for i, char in enumerate(text)` loop of `_parse_and_validate`.
`recParse` parses a nested template's captured text or the alternative tail.
The source dispatches by `match char, current_component`; here the same
case table is organised by current component first, which is exhaustive
over the same pairs. -/
def parseChars (recParse : Text → Except ParseError Template) (text : Text) :
    Text → Nat → CurrentComponent → Nat → List Component →
    Except ParseError LoopOutcome
  | [], _, cur, _, comps => .ok ⟨comps, .none, text, cur⟩
  | ch :: rest, i, cur, depth, comps =>
    if isCharacterToCheck ch = false then
      -- `if char not in characters_to_check: append to the open component`
      match cur with
      | .none => parseChars recParse text rest (i + 1) .none depth comps
      | .tmpl b =>
        parseChars recParse text rest (i + 1)
          (.tmpl { b with inputCharacters := b.inputCharacters ++ [ch] }) depth comps
      | .var b =>
        match b.append ch with
        | .error e => .error (.syntaxError e)
        | .ok b' => parseChars recParse text rest (i + 1) (.var b') depth comps
    else
      match cur with
      | .tmpl b =>
        if ch = TEMPLATE_OPENING then
          -- push a nesting marker and keep the raw character
          parseChars recParse text rest (i + 1)
            (.tmpl { b with inputCharacters := b.inputCharacters ++ [ch] })
            (depth + 1) comps
        else if ch = TEMPLATE_CLOSING then
          if 0 < depth then
            parseChars recParse text rest (i + 1)
              (.tmpl { b with inputCharacters := b.inputCharacters ++ [ch] })
              (depth - 1) comps
          else
            -- close: the captured text is parsed recursively, two-phase
            match recParse b.inputCharacters with
            | .error e => .error e
            | .ok inner =>
              parseChars recParse text rest (i + 1) .none depth
                (comps ++ [Component.tmpl (inner.withIndices b.startIndex (i + 1))])
        else
          -- `[_, Template()]`: separator and variable delimiters are raw
          parseChars recParse text rest (i + 1)
            (.tmpl { b with inputCharacters := b.inputCharacters ++ [ch] }) depth comps
      | .var b =>
        if ch = VARIABLE_CLOSING then
          match b.close (i + 1) with
          | .error e => .error (.syntaxError e)
          | .ok v =>
            parseChars recParse text rest (i + 1) .none depth
              (comps ++ [Component.var v])
        else
          .error (.syntaxError ⟨"Wrong special character position",
                                Option.some ⟨text, i + 1⟩⟩)
      | .none =>
        if ch = TEMPLATE_OPENING then
          parseChars recParse text rest (i + 1) (.tmpl ⟨i, []⟩) depth comps
        else if ch = VARIABLE_OPENING then
          parseChars recParse text rest (i + 1) (.var (VarBuilder.init i)) depth comps
        else if ch = TEMPLATE_SEPARATOR then
          -- the tail becomes the alternative; own text truncated; break
          match recParse rest with
          | .error e => .error e
          | .ok alt => .ok ⟨comps, .some alt, text.take i, .none⟩
        else
          .error (.syntaxError ⟨"Wrong special character position",
                                Option.some ⟨text, i + 1⟩⟩)

/-- `_parse_and_validate` body: run the loop, then the after-loop checks
(empty text first, then unclosed component). -/
def parseAndValidate (recParse : Text → Except ParseError Template) (text : Text) :
    Except ParseError Template :=
  match parseChars recParse text text 0 .none 0 [] with
  | .error e => .error e
  | .ok outcome =>
    if outcome.inputText = [] then
      .error (.syntaxError ⟨"A template can not be empty", Option.none⟩)
    else
      match outcome.current with
      | .none =>
        .ok (Template.mk outcome.inputText Option.none Option.none
              (ComponentList.ofList outcome.components) outcome.alternative)
      | .tmpl b =>
        .error (.syntaxError ⟨"Template not closed",
                              Option.some ⟨text, b.startIndex + 1⟩⟩)
      | .var b =>
        .error (.syntaxError ⟨"Variable not closed",
                              Option.some ⟨text, b.startIndex + 1⟩⟩)

def parseTemplateFuel : Nat → Text → Except ParseError Template
  | 0, _ => .error .outOfFuel
  | fuel + 1, text => parseAndValidate (parseTemplateFuel fuel) text

/-- `Template(input_text=text)`: parse a whole template.  Every recursive
parse is on a strictly shorter text, so fuel `length + 1` never runs out. -/
def parseTemplate (text : Text) : Except ParseError Template :=
  parseTemplateFuel (text.length + 1) text

/-- Projection used to state which error parsing produced. -/
def parseErr? : Except ParseError Template → Option ParseError
  | .error e => Option.some e
  | .ok _ => Option.none

/-! ### Span bookkeeping for the reconstruction argument -/

/-- All components carry recorded spans `[s, e)` with
`lo ≤ s ≤ e ≤ … ≤ hi`: spans are within bounds and ordered left to right,
pairwise non-overlapping. -/
def ComponentList.spansOrdered (lo hi : Nat) : ComponentList → Bool
  | .nil => decide (lo ≤ hi)
  | .cons c rest =>
    match c.startIndex, c.endIndex with
    | Option.some s, Option.some e =>
      decide (lo ≤ s) && decide (s ≤ e) && rest.spansOrdered e hi
    | _, _ => false

/-- The specification-side reading of reconstruction: each child's recorded
raw span `[start_index, end_index)` of the ORIGINAL text is replaced by
that child's substituted text, left to right, with the variables consuming
their substitutions in order. -/
def ComponentList.splicedText (params : Params) (text : Text) :
    ComponentList → List Text → Text
  | .nil, _ => text
  | .cons c rest, own =>
    let componentText :=
      match c with
      | .var _ => own.headD []
      | .tmpl inner =>
        match inner.substitute params with
        | .ok r => r
        | .error _ => []
    let own' :=
      match c with
      | .var _ => own.tail
      | .tmpl _ => own
    text.take ((c.startIndex).getD 0) ++ componentText ++
      ((rest.splicedText params text own').drop ((c.endIndex).getD 0))

/-! ### Facade (prompt_api.py) -/

/-- A `Prompt`: the parsed template and the `cached_property` slot backing
`Prompt.variables`. -/
structure Prompt where
  template : Template
  variablesCache : Option (List RequiredAndOptionalVariables)

/-- `Prompt.variables` (a `cached_property`): compute `variable_keys` on
first access and store it; afterwards return the stored value.  The state
threading makes any mutation of the prompt observable. -/
def Prompt.variables (p : Prompt) : List RequiredAndOptionalVariables × Prompt :=
  match p.variablesCache with
  | Option.some r => (r, p)
  | Option.none =>
    (p.template.variableKeys, { p with variablesCache := Option.some p.template.variableKeys })

/-- A Python value as seen by `_validate_params`.  A float is carried by the
text `str()` renders it to; any value that is not a str/int/float is
`other`. -/
inductive PyValue where
  | str (s : Text)
  | int (n : Int)
  | float (stringRepr : Text)
  | other
deriving Repr, DecidableEq

/-- A Python dict object: ordered key-value pairs. -/
abbrev PyDict := List (PyValue × PyValue)

/-- The heap: dict objects addressed by index, so that in-place mutation and
object identity are observable. -/
abbrev Store := List PyDict

/-- Python `str(n)` for an int (decimal, `-` sign). -/
def intStr (n : Int) : Text := (toString n).toList

/-- The value conversion `_validate_params` performs on each entry. -/
def convertValue : PyValue → PyValue
  | .int n => .str (intStr n)
  | .float r => .str r
  | v => v

/-- The `for key, value in params.items()` loop of `_validate_params`:
non-str key or non-str/int/float value raises; int/float values are
re-assigned as their `str()`. -/
def validateItems : PyDict → Except ParametersTypeError PyDict
  | [] => .ok []
  | (key, value) :: rest =>
    match key with
    | .str _ =>
      match value with
      | .str s =>
        match validateItems rest with
        | .error e => .error e
        | .ok r => .ok ((key, .str s) :: r)
      | .int n =>
        match validateItems rest with
        | .error e => .error e
        | .ok r => .ok ((key, .str (intStr n)) :: r)
      | .float fr =>
        match validateItems rest with
        | .error e => .error e
        | .ok r => .ok ((key, .str fr) :: r)
      | .other => .error ⟨⟩
    | _ => .error ⟨⟩

/-- `_validate_params(params)`: reads the dict at `addr`, converts the
values IN PLACE (the store is updated at the same address) and returns the
same reference. -/
def validateParams (addr : Nat) (store : Store) :
    Except ParametersTypeError (Nat × Store) :=
  match store.get? addr with
  | Option.none => .error ⟨⟩
  | Option.some d =>
    match validateItems d with
    | .error e => .error e
    | .ok d' => .ok (addr, store.set addr d')

/-- Read a validated dict as the string-to-string mapping the core receives. -/
def toParams (d : PyDict) : Params :=
  d.filterMap (fun kv =>
    match kv with
    | (.str k, .str v) => Option.some (k, v)
    | _ => Option.none)

/-- Python `str.split()` whitespace (ASCII part). -/
def isPyWhitespaceChar (c : Char) : Bool :=
  c == ' ' || c == '\t' || c == '\n' || c == '\r' || c == '\x0b' || c == '\x0c'

def pySplitAux : Text → Text → List Text
  | [], acc => if acc = [] then [] else [acc.reverse]
  | c :: rest, acc =>
    if isPyWhitespaceChar c then
      if acc = [] then pySplitAux rest []
      else acc.reverse :: pySplitAux rest []
    else pySplitAux rest (c :: acc)

/-- `result.split()`: split on whitespace runs, dropping empty pieces. -/
def pySplit (t : Text) : List Text := pySplitAux t []

/-- `" ".join(pieces)`. -/
def joinWithSpace : List Text → Text
  | [] => []
  | [x] => x
  | x :: xs => x ++ ' ' :: joinWithSpace xs

/-- The exceptions `Prompt.substitute` could let escape. -/
inductive FacadeError where
  | parametersTypeError
  | variableError
deriving Repr, DecidableEq

/-- `Prompt.substitute(params, postprocess_whitespace_reduction)`: validate
the parameters (mutating the caller's dict), call the core with the dict
read back from the SAME address, then optionally reduce whitespace. -/
def Prompt.substituteFacade (p : Prompt) (addr : Nat) (store : Store)
    (postprocessWhitespaceReduction : Bool) : Except FacadeError (Text × Store) :=
  match validateParams addr store with
  | .error _ => .error .parametersTypeError
  | .ok (addr', store') =>
    match store'.get? addr' with
    | Option.none => .error .parametersTypeError
    | Option.some d =>
      match p.template.substitute (toParams d) with
      | .error _ => .error .variableError
      | .ok result =>
        .ok ((if postprocessWhitespaceReduction then joinWithSpace (pySplit result)
              else result), store')

/-! ### Concrete examples used as witnesses -/

/-- The template text `A{x}B{y}C`. -/
def tAxByCtext : Text := ['A', '{', 'x', '}', 'B', '{', 'y', '}', 'C']

/-- The tree `parseTemplate tAxByCtext` produces. -/
def tAxByC : Template :=
  .mk tAxByCtext Option.none Option.none
    (.cons (.var ⟨1, 4, false, ['x'], Option.none⟩)
      (.cons (.var ⟨5, 8, false, ['y'], Option.none⟩) .nil))
    .none

def exParamsXY : Params := [(['x'], ['1', '1']), (['y'], ['2'])]

/-- The template text `Only if {var_1} and {var_2} are known`. -/
def tOnlyIfText : Text :=
  "Only if ".toList ++ ('{' :: "var_1".toList) ++ ('}' :: " and ".toList) ++
    ('{' :: "var_2".toList) ++ ('}' :: " are known".toList)

/-- The tree `parseTemplate tOnlyIfText` produces. -/
def tOnlyIf : Template :=
  .mk tOnlyIfText Option.none Option.none
    (.cons (.var ⟨8, 15, false, "var_1".toList, Option.none⟩)
      (.cons (.var ⟨20, 27, false, "var_2".toList, Option.none⟩) .nil))
    .none

def exParamsBoth : Params :=
  [("var_1".toList, "value_1".toList), ("var_2".toList, "value_2".toList)]

def exParamsFirstOnly : Params := [("var_1".toList, "value_1".toList)]

/-- The template text `{var_1} is needed, [but {var_2} [and {var_3}] not so much]`. -/
def tC5text : Text :=
  ('{' :: "var_1".toList) ++ ('}' :: " is needed, ".toList) ++ ('[' :: "but ".toList) ++
    ('{' :: "var_2".toList) ++ ('}' :: " ".toList) ++ ('[' :: "and ".toList) ++
    ('{' :: "var_3".toList) ++ ('}' :: ']' :: " not so much".toList) ++ [']']

/-- The tree `parseTemplate tC5text` produces. -/
def tC5 : Template :=
  .mk tC5text Option.none Option.none
    (.cons (.var ⟨0, 7, false, "var_1".toList, Option.none⟩)
      (.cons (.tmpl (.mk
          ("but ".toList ++ ('{' :: "var_2".toList) ++ ('}' :: " ".toList) ++
            ('[' :: "and ".toList) ++ ('{' :: "var_3".toList) ++
            ('}' :: ']' :: " not so much".toList))
          (Option.some 19) (Option.some 58)
          (.cons (.var ⟨4, 11, false, "var_2".toList, Option.none⟩)
            (.cons (.tmpl (.mk
                ("and ".toList ++ ('{' :: "var_3".toList) ++ ['}'])
                (Option.some 12) (Option.some 25)
                (.cons (.var ⟨4, 11, false, "var_3".toList, Option.none⟩) .nil)
                .none))
              .nil))
          .none))
        .nil))
    .none

/-- The template text `{a} [x {a}]`: the key `a` is both a direct variable
and nested inside an optional block. -/
def tC10text : Text := ['{', 'a', '}', ' ', '[', 'x', ' ', '{', 'a', '}', ']']

/-- The tree `parseTemplate tC10text` produces. -/
def tC10 : Template :=
  .mk tC10text Option.none Option.none
    (.cons (.var ⟨0, 3, false, ['a'], Option.none⟩)
      (.cons (.tmpl (.mk ['x', ' ', '{', 'a', '}'] (Option.some 4) (Option.some 11)
          (.cons (.var ⟨2, 5, false, ['a'], Option.none⟩) .nil) .none))
        .nil))
    .none

/-- The builder state after scanning `{weather=hot` (from `{weather=hot}`). -/
def exVarBuilder : VarBuilder :=
  ⟨0, false, .requiredValueCharacters, "weather".toList, "hot".toList⟩

/-- The variable `{weather=hot}` closed at offset 13. -/
def exVarWeather : Variable :=
  ⟨0, 13, false, "weather".toList, Option.some "hot".toList⟩

/-! ## Theorems -/

/-! ### Unfolding lemmas for the mutually recursive substitution -/

theorem substituteAlternative_none (params : Params) :
    (OptionalTemplate.none).substituteAlternative params = Except.ok [] := by
  rw [OptionalTemplate.substituteAlternative.eq_def]

theorem substituteAlternative_some (a : Template) (params : Params) :
    (OptionalTemplate.some a).substituteAlternative params = a.substitute params := by
  rw [OptionalTemplate.substituteAlternative.eq_def]

theorem substituteOne_var (v : Variable) (params : Params) (subs : List Text) :
    (Component.var v).substituteOne params subs =
      Except.ok (subs.getLastD [], subs.dropLast) := by
  rw [Component.substituteOne.eq_def]

theorem substituteOne_tmpl (inner : Template) (params : Params) (subs : List Text)
    (r : Text) (h : inner.substitute params = Except.ok r) :
    (Component.tmpl inner).substituteOne params subs = Except.ok (r, subs) := by
  simp only [Component.substituteOne.eq_def, h]

theorem substituteAll_nil (params : Params) (acc : Text × List Text) :
    (ComponentList.nil).substituteAll params acc = Except.ok acc := by
  rw [ComponentList.substituteAll.eq_def]

theorem substituteAll_cons (c : Component) (rest : ComponentList) (params : Params)
    (acc : Text × List Text) (ts cs : Text × List Text)
    (h1 : rest.substituteAll params acc = Except.ok ts)
    (h2 : c.substituteOne params ts.2 = Except.ok cs) :
    (ComponentList.cons c rest).substituteAll params acc =
      Except.ok (pySliceTo ts.1 c.startIndex ++ cs.1 ++ pySliceFrom ts.1 c.endIndex,
                 cs.2) := by
  rw [ComponentList.substituteAll.eq_def]
  simp only [h1, h2]

theorem substitute_of_vars_error (t : Template) (params : Params)
    (h : substituteVariables t.components.directVariables params = Except.error ⟨⟩) :
    t.substitute params = t.alternative.substituteAlternative params := by
  cases t
  simp only [Template.components, Template.alternative] at h ⊢
  simp only [Template.substitute.eq_def, h]

theorem substitute_of_vars_ok (t : Template) (params : Params) (subs : List Text)
    (r : Text × List Text)
    (h : substituteVariables t.components.directVariables params = Except.ok subs)
    (h2 : t.components.substituteAll params (t.inputText, subs) = Except.ok r) :
    t.substitute params = Except.ok r.1 := by
  cases t
  simp only [Template.components, Template.inputText] at h h2
  simp only [Template.substitute.eq_def, h, h2]

/-! ### The unsatisfied-variable signal never escapes -/

mutual

theorem substitute_isOk (t : Template) (params : Params) :
    ∃ r, t.substitute params = Except.ok r := by
  match t with
  | .mk it si ei comps alt =>
    cases hsv : substituteVariables comps.directVariables params with
    | error e =>
      obtain ⟨⟩ := e
      rw [substitute_of_vars_error (Template.mk it si ei comps alt) params hsv]
      simp only [Template.alternative]
      cases alt with
      | none => exact ⟨[], substituteAlternative_none params⟩
      | some a =>
        obtain ⟨r, hr⟩ := substitute_isOk a params
        exact ⟨r, by rw [substituteAlternative_some, hr]⟩
    | ok subs =>
      obtain ⟨r, hr⟩ := substituteAll_isOk comps params (it, subs)
      exact ⟨r.1, substitute_of_vars_ok (Template.mk it si ei comps alt) params subs r hsv hr⟩

theorem substituteOne_isOk (c : Component) (params : Params) (subs : List Text) :
    ∃ r, c.substituteOne params subs = Except.ok r := by
  match c with
  | .var v => exact ⟨_, substituteOne_var v params subs⟩
  | .tmpl inner =>
    obtain ⟨s, hs⟩ := substitute_isOk inner params
    exact ⟨(s, subs), substituteOne_tmpl inner params subs s hs⟩

theorem substituteAll_isOk (comps : ComponentList) (params : Params)
    (acc : Text × List Text) :
    ∃ r, comps.substituteAll params acc = Except.ok r := by
  match comps with
  | .nil => exact ⟨acc, substituteAll_nil params acc⟩
  | .cons c rest =>
    obtain ⟨ts, hts⟩ := substituteAll_isOk rest params acc
    obtain ⟨cs, hcs⟩ := substituteOne_isOk c params ts.2
    exact ⟨_, substituteAll_cons c rest params acc ts cs hts hcs⟩

end

/-- Claim C1: for every template value (in particular every one successfully
constructed by parsing) and every string-to-string parameter mapping, the
core substitution terminates and returns a string: the `VariableError`
raised by a `Variable` is always caught at the owning block (where it
selects the alternative or the empty string), so the result is always
`Except.ok` — no exception escapes `Template.substitute`. -/
theorem C1_substitute_never_raises (t : Template) (params : Params) :
    ∃ result, t.substitute params = Except.ok result :=
  substitute_isOk t params

/-! ### All-or-nothing block satisfaction -/

theorem substituteVariables_error_of_mem (vars : List Variable) (params : Params)
    (v : Variable) (hv : v ∈ vars) (herr : v.substitute params = Except.error ⟨⟩) :
    substituteVariables vars params = Except.error ⟨⟩ := by
  induction vars with
  | nil => cases hv
  | cons w rest ih =>
    simp only [substituteVariables]
    cases hw : w.substitute params with
    | error e => obtain ⟨⟩ := e; rfl
    | ok s =>
      rcases List.mem_cons.mp hv with h | h
      · subst h; rw [hw] at herr; cases herr
      · rw [ih h]

theorem substituteVariables_ok_of_forall (vars : List Variable) (params : Params)
    (h : ∀ v ∈ vars, v.substitute params ≠ Except.error ⟨⟩) :
    ∃ subs, substituteVariables vars params = Except.ok subs ∧
      subs.length = vars.length := by
  induction vars with
  | nil => exact ⟨[], rfl, rfl⟩
  | cons w rest ih =>
    obtain ⟨subs, hsubs, hlen⟩ := ih (fun v hv => h v (List.mem_cons_of_mem w hv))
    cases hw : w.substitute params with
    | error e =>
      obtain ⟨⟩ := e
      exact absurd hw (h w (List.mem_cons_self w rest))
    | ok s =>
      refine ⟨s :: subs, ?_, by simp [hlen]⟩
      simp only [substituteVariables, hw, hsubs]

theorem substituteVariables_ok_length (vars : List Variable) (params : Params)
    (subs : List Text) (h : substituteVariables vars params = Except.ok subs) :
    subs.length = vars.length := by
  induction vars generalizing subs with
  | nil => simp only [substituteVariables] at h; cases h; rfl
  | cons w rest ih =>
    simp only [substituteVariables] at h
    cases hw : w.substitute params with
    | error e => rw [hw] at h; cases h
    | ok s =>
      rw [hw] at h
      cases hr : substituteVariables rest params with
      | error e => rw [hr] at h; cases h
      | ok ss => rw [hr] at h; cases h; simp [ih ss hr]

/-- Claim C2: block substitution is all-or-nothing over the block's direct
(non-nested) variables.  If some direct variable is unsatisfied the block
yields its alternative's substitution when an alternative exists and the
empty string otherwise (`substituteAlternative`), never a partial text;
if every direct variable substitutes, the block yields the text rebuilt by
`substituteAll`.  The choice depends only on the direct variables, not on
nested blocks' own satisfaction. -/
theorem C2_all_or_nothing (t : Template) (params : Params) :
    ((∃ v ∈ t.components.directVariables, v.substitute params = Except.error ⟨⟩) →
       t.substitute params =
         match t.alternative with
         | OptionalTemplate.some a => a.substitute params
         | OptionalTemplate.none => Except.ok []) ∧
    ((∀ v ∈ t.components.directVariables, v.substitute params ≠ Except.error ⟨⟩) →
       ∃ subs, substituteVariables t.components.directVariables params = Except.ok subs ∧
         t.substitute params =
           match t.components.substituteAll params (t.inputText, subs) with
           | Except.error e => Except.error e
           | Except.ok r => Except.ok r.1) := by
  constructor
  · rintro ⟨v, hv, herr⟩
    rw [substitute_of_vars_error t params
          (substituteVariables_error_of_mem _ params v hv herr)]
    cases t with
    | mk it si ei comps alt =>
      simp only [Template.alternative]
      cases alt with
      | none => exact substituteAlternative_none params
      | some a => exact substituteAlternative_some a params
  · intro h
    obtain ⟨subs, hsubs, _⟩ :=
      substituteVariables_ok_of_forall t.components.directVariables params h
    refine ⟨subs, hsubs, ?_⟩
    obtain ⟨r, hr⟩ := substituteAll_isOk t.components params (t.inputText, subs)
    rw [substitute_of_vars_ok t params subs r hsubs hr, hr]

/-- Witness for C2 at the spec's own example `Only if {var_1} and {var_2}
are known`: with only `var_1` supplied the first conjunct applies and the
result is the empty string; with both supplied the second conjunct applies. -/
theorem C2_witness :
    parseTemplate tOnlyIfText = Except.ok tOnlyIf ∧
    (∃ v ∈ tOnlyIf.components.directVariables,
       v.substitute exParamsFirstOnly = Except.error ⟨⟩) ∧
    tOnlyIf.substitute exParamsFirstOnly =
      (match tOnlyIf.alternative with
       | OptionalTemplate.some a => a.substitute exParamsFirstOnly
       | OptionalTemplate.none => Except.ok []) ∧
    (∀ v ∈ tOnlyIf.components.directVariables,
       v.substitute exParamsBoth ≠ Except.error ⟨⟩) ∧
    (∃ subs, substituteVariables tOnlyIf.components.directVariables exParamsBoth =
        Except.ok subs ∧
      tOnlyIf.substitute exParamsBoth =
        match tOnlyIf.components.substituteAll exParamsBoth (tOnlyIf.inputText, subs) with
        | Except.error e => Except.error e
        | Except.ok r => Except.ok r.1) :=
  ⟨rfl,
   by decide,
   (C2_all_or_nothing tOnlyIf exParamsFirstOnly).1 (by decide),
   by decide,
   (C2_all_or_nothing tOnlyIf exParamsBoth).2 (by decide)⟩

/-! ### Right-to-left reconstruction -/

theorem spansOrdered_nil (lo hi : Nat) :
    (ComponentList.nil).spansOrdered lo hi = true ↔ lo ≤ hi := by
  rw [ComponentList.spansOrdered.eq_def]
  simp

theorem spansOrdered_cons (c : Component) (rest : ComponentList) (lo hi : Nat)
    (h : (ComponentList.cons c rest).spansOrdered lo hi = true) :
    ∃ s e, c.startIndex = Option.some s ∧ c.endIndex = Option.some e ∧
      lo ≤ s ∧ s ≤ e ∧ rest.spansOrdered e hi = true := by
  rw [ComponentList.spansOrdered.eq_def] at h
  cases hs : c.startIndex with
  | none => simp [hs] at h
  | some s =>
    cases he : c.endIndex with
    | none => simp [hs, he] at h
    | some e =>
      simp only [hs, he, Bool.and_eq_true, decide_eq_true_eq] at h
      exact ⟨s, e, rfl, rfl, h.1.1, h.1.2, h.2⟩

theorem spansOrdered_le : ∀ (comps : ComponentList) (lo hi : Nat),
    comps.spansOrdered lo hi = true → lo ≤ hi
  | .nil, lo, hi, h => (spansOrdered_nil lo hi).mp h
  | .cons c rest, lo, hi, h => by
    obtain ⟨s, e, _, _, hlos, hse, hrest⟩ := spansOrdered_cons c rest lo hi h
    exact le_trans hlos (le_trans hse (spansOrdered_le rest e hi hrest))

theorem splicedText_nil (params : Params) (text : Text) (own : List Text) :
    (ComponentList.nil).splicedText params text own = text := by
  rw [ComponentList.splicedText.eq_def]

theorem splicedText_cons_var (v : Variable) (rest : ComponentList) (params : Params)
    (text : Text) (own : List Text) :
    (ComponentList.cons (Component.var v) rest).splicedText params text own =
      text.take v.startIndex ++ own.headD [] ++
        ((rest.splicedText params text own.tail).drop v.endIndex) := by
  rw [ComponentList.splicedText.eq_def]
  simp [Component.startIndex, Component.endIndex]

theorem splicedText_cons_tmpl (inner : Template) (rest : ComponentList) (params : Params)
    (text : Text) (own : List Text) (r : Text)
    (h : inner.substitute params = Except.ok r) :
    (ComponentList.cons (Component.tmpl inner) rest).splicedText params text own =
      text.take ((inner.startIndex).getD 0) ++ r ++
        ((rest.splicedText params text own).drop ((inner.endIndex).getD 0)) := by
  rw [ComponentList.splicedText.eq_def]
  simp [Component.startIndex, Component.endIndex, h]

/-- Left of any span, the spliced text agrees with the original text:
replacements further right never touch offsets further left. -/
theorem splicedText_take (params : Params) (text : Text) :
    ∀ (comps : ComponentList) (own : List Text) (lo m : Nat),
      comps.spansOrdered lo text.length = true → m ≤ lo →
      (comps.splicedText params text own).take m = text.take m
  | .nil, own, lo, m, _, _ => by rw [splicedText_nil]
  | .cons c rest, own, lo, m, h, hm => by
    obtain ⟨s, e, hs, he, hlos, hse, hrest⟩ := spansOrdered_cons c rest lo text.length h
    have hetext : e ≤ text.length := spansOrdered_le rest e text.length hrest
    cases c with
    | var v =>
      have hvs : v.startIndex = s := by
        simpa [Component.startIndex] using hs
      rw [splicedText_cons_var, hvs, List.append_assoc,
        List.take_append_of_le_length (by simp [List.length_take]; omega),
        List.take_take]
      congr 1
      omega
    | tmpl inner =>
      obtain ⟨r, hr⟩ := substitute_isOk inner params
      have his : inner.startIndex = Option.some s := by
        simpa [Component.startIndex] using hs
      rw [splicedText_cons_tmpl inner rest params text own r hr, his]
      simp only [Option.getD_some]
      rw [List.append_assoc,
        List.take_append_of_le_length (by simp [List.length_take]; omega),
        List.take_take]
      congr 1
      omega

/-- The right-to-left loop of `_substitute_all_components` computes exactly
the left-to-right interleaving `splicedText` of the original text with the
substituted components, consuming the variable substitutions from the end
of the list (`pre` is the part of the substitution list belonging to
components left of `comps`; it is returned untouched). -/
theorem substituteAll_spliced (params : Params) (text : Text) :
    ∀ (comps : ComponentList) (lo : Nat) (pre own : List Text),
      comps.spansOrdered lo text.length = true →
      own.length = comps.directVariables.length →
      comps.substituteAll params (text, pre ++ own) =
        Except.ok (comps.splicedText params text own, pre)
  | .nil, lo, pre, own, _, hlen => by
    have hown : own = [] :=
      List.length_eq_zero.mp (by simpa [ComponentList.directVariables] using hlen)
    subst hown
    rw [List.append_nil, substituteAll_nil, splicedText_nil]
  | .cons c rest, lo, pre, own, h, hlen => by
    obtain ⟨s, e, hs, he, hlos, hse, hrest⟩ := spansOrdered_cons c rest lo text.length h
    cases c with
    | var v =>
      have hvs : v.startIndex = s := by simpa [Component.startIndex] using hs
      have hve : v.endIndex = e := by simpa [Component.endIndex] using he
      cases own with
      | nil => simp [ComponentList.directVariables] at hlen
      | cons o os =>
        have hlen' : os.length = rest.directVariables.length := by
          simpa [ComponentList.directVariables] using hlen
        have ih := substituteAll_spliced params text rest e (pre ++ [o]) os hrest hlen'
        have hre : pre ++ o :: os = (pre ++ [o]) ++ os := by simp
        rw [hre,
          substituteAll_cons (Component.var v) rest params (text, (pre ++ [o]) ++ os)
            (rest.splicedText params text os, pre ++ [o]) (o, pre) ih
            (by rw [substituteOne_var, List.getLastD_concat, List.dropLast_concat]),
          splicedText_cons_var, hvs, hve]
        have htake : (rest.splicedText params text os).take s = text.take s :=
          splicedText_take params text rest os e s hrest hse
        simp [hs, he, pySliceTo, pySliceFrom, htake]
    | tmpl inner =>
      have his : inner.startIndex = Option.some s := by
        simpa [Component.startIndex] using hs
      have hie : inner.endIndex = Option.some e := by
        simpa [Component.endIndex] using he
      have hlen' : own.length = rest.directVariables.length := by
        simpa [ComponentList.directVariables] using hlen
      have ih := substituteAll_spliced params text rest e pre own hrest hlen'
      obtain ⟨r, hr⟩ := substitute_isOk inner params
      rw [substituteAll_cons (Component.tmpl inner) rest params (text, pre ++ own)
            (rest.splicedText params text own, pre) (r, pre) ih
            (substituteOne_tmpl inner params pre r hr),
        splicedText_cons_tmpl inner rest params text own r hr, his, hie]
      have htake : (rest.splicedText params text own).take s = text.take s :=
        splicedText_take params text rest own e s hrest hse
      simp [hs, he, pySliceTo, pySliceFrom, htake]

/-- Claim C3: when the block's direct variables are all satisfied, the
right-to-left processing of `substituteAll` (components processed in
reversed order, each replacing its recorded raw span `[start_index,
end_index)`) yields exactly the left-to-right interleaving `splicedText`
of the original text with the substituted children — the right-to-left
order keeps every not-yet-processed child's recorded offsets valid even
when substituted lengths differ from the original spans. -/
theorem C3_right_to_left_reconstruction (t : Template) (params : Params) (subs : List Text)
    (hspans : t.components.spansOrdered 0 t.inputText.length = true)
    (hvars : substituteVariables t.components.directVariables params = Except.ok subs) :
    t.substitute params =
      Except.ok (t.components.splicedText params t.inputText subs) := by
  have hlen := substituteVariables_ok_length _ _ _ hvars
  have h := substituteAll_spliced params t.inputText t.components 0 [] subs hspans hlen
  rw [List.nil_append] at h
  exact substitute_of_vars_ok t params subs _ hvars h

/-- Witness for C3 at the spec's example `A{x}B{y}C` with `x` bound to `11`
and `y` to `2`: the reconstruction yields `A11B2C`. -/
theorem C3_witness :
    parseTemplate tAxByCtext = Except.ok tAxByC ∧
    tAxByC.components.spansOrdered 0 tAxByC.inputText.length = true ∧
    substituteVariables tAxByC.components.directVariables exParamsXY =
      Except.ok [['1', '1'], ['2']] ∧
    tAxByC.substitute exParamsXY =
      Except.ok (tAxByC.components.splicedText exParamsXY tAxByC.inputText
        [['1', '1'], ['2']]) ∧
    tAxByC.components.splicedText exParamsXY tAxByC.inputText [['1', '1'], ['2']] =
      ['A', '1', '1', 'B', '2', 'C'] :=
  ⟨rfl, by decide, by decide,
   C3_right_to_left_reconstruction tAxByC exParamsXY [['1', '1'], ['2']]
     (by decide) (by decide),
   by decide⟩

/-! ### Variable substitution semantics -/

/-- A successfully closed variable never carries an empty required-value
(`_set_required_value` raises on an empty buffer when the marker was seen). -/
theorem close_ok_requiredValue (b : VarBuilder) (endIdx : Nat) (v : Variable)
    (h : b.close endIdx = Except.ok v) :
    v.requiredValue = Option.none ∨
      ∃ rv, v.requiredValue = Option.some rv ∧ rv ≠ [] := by
  unfold VarBuilder.close at h
  by_cases hrv : b.rvChars.length = 0
  · by_cases htgt : b.target = AppendTarget.requiredValueCharacters
    · simp [hrv, htgt] at h
    · by_cases hkey : b.keyChars.length = 0
      · simp [hrv, htgt, hkey] at h
      · simp [hrv, htgt, hkey] at h
        left
        rw [← h]
  · by_cases hkey : b.keyChars.length = 0
    · simp [hrv, hkey] at h
    · simp [hrv, hkey] at h
      right
      refine ⟨b.rvChars, by rw [← h], fun hnil => hrv (by simp [hnil])⟩

/-- Claim C4: a closed variable signals unsatisfied exactly when its key is
absent from the mapping, or resolves to the empty string, or a
required-value is set and the resolved value is not exactly string-equal
to it; otherwise it yields the empty string when muted and the resolved
value when not. -/
theorem C4_variable_unsatisfied_iff (b : VarBuilder) (endIdx : Nat) (v : Variable)
    (params : Params) (hclose : b.close endIdx = Except.ok v) :
    (v.substitute params = Except.error ⟨⟩ ↔
      dictGet? params v.key = Option.none ∨
      dictGet? params v.key = Option.some [] ∨
      ∃ rv, v.requiredValue = Option.some rv ∧ (dictGet? params v.key).getD [] ≠ rv) ∧
    (v.substitute params ≠ Except.error ⟨⟩ →
      v.substitute params =
        Except.ok (if v.muted then [] else (dictGet? params v.key).getD [])) := by
  have hrvfact := close_ok_requiredValue b endIdx v hclose
  constructor
  · constructor
    · intro herr
      by_cases h1 : (dictGet? params v.key).getD [] = []
      · cases hd : dictGet? params v.key with
        | none => exact Or.inl rfl
        | some val =>
          rw [hd] at h1
          simp only [Option.getD_some] at h1
          exact Or.inr (Or.inl (by rw [h1]))
      · right; right
        simp only [Variable.substitute, if_neg h1] at herr
        cases hm : pyRequiredMismatch v.requiredValue ((dictGet? params v.key).getD []) with
        | true =>
          cases hrv : v.requiredValue with
          | none => rw [hrv] at hm; simp [pyRequiredMismatch] at hm
          | some rv =>
            rw [hrv] at hm
            simp only [pyRequiredMismatch, Bool.and_eq_true, decide_eq_true_eq] at hm
            exact ⟨rv, rfl, hm.2⟩
        | false =>
          rw [hm] at herr
          simp only [Bool.false_eq_true, if_false] at herr
          cases hmut : v.muted <;> rw [hmut] at herr <;> simp at herr
    · intro hcond
      rcases hcond with hnone | hempty | ⟨rv, hrv, hne⟩
      · simp [Variable.substitute, hnone]
      · simp [Variable.substitute, hempty]
      · by_cases h1 : (dictGet? params v.key).getD [] = []
        · simp [Variable.substitute, h1]
        · have hrvne : rv ≠ [] := by
            rcases hrvfact with hn | ⟨rv', hrv', hne'⟩
            · rw [hn] at hrv; cases hrv
            · rw [hrv'] at hrv; cases hrv; exact hne'
          have hm : pyRequiredMismatch v.requiredValue ((dictGet? params v.key).getD []) =
              true := by
            simp [pyRequiredMismatch, hrv, hrvne, hne]
          simp [Variable.substitute, h1, hm]
  · intro hne
    by_cases h1 : (dictGet? params v.key).getD [] = []
    · exact absurd (by simp [Variable.substitute, h1]) hne
    · cases hm : pyRequiredMismatch v.requiredValue ((dictGet? params v.key).getD []) with
      | true => exact absurd (by simp [Variable.substitute, h1, hm]) hne
      | false => cases hmut : v.muted <;> simp [Variable.substitute, h1, hm, hmut]

/-- Witness for C4 at the variable `{weather=hot}` closed from its builder
state: with `weather` set to `cold` the unsatisfied condition holds; with
`weather` set to `hot` the substitution succeeds with the resolved value. -/
theorem C4_witness :
    exVarBuilder.close 13 = Except.ok exVarWeather ∧
    (exVarWeather.substitute [("weather".toList, "cold".toList)] = Except.error ⟨⟩ ↔
      dictGet? [("weather".toList, "cold".toList)] exVarWeather.key = Option.none ∨
      dictGet? [("weather".toList, "cold".toList)] exVarWeather.key = Option.some [] ∨
      ∃ rv, exVarWeather.requiredValue = Option.some rv ∧
        (dictGet? [("weather".toList, "cold".toList)] exVarWeather.key).getD [] ≠ rv) ∧
    (exVarWeather.substitute [("weather".toList, "hot".toList)] ≠ Except.error ⟨⟩ →
      exVarWeather.substitute [("weather".toList, "hot".toList)] =
        Except.ok (if exVarWeather.muted then []
                   else (dictGet? [("weather".toList, "hot".toList)]
                          exVarWeather.key).getD [])) :=
  ⟨rfl,
   (C4_variable_unsatisfied_iff exVarBuilder 13 exVarWeather
     [("weather".toList, "cold".toList)] rfl).1,
   (C4_variable_unsatisfied_iff exVarBuilder 13 exVarWeather
     [("weather".toList, "hot".toList)] rfl).2⟩

/-! ### The mute marker -/

/-- Claim C7: while the key is being captured, the mute marker is accepted
only with an empty key buffer and an unset mute flag (i.e. as the very
first character of the variable) — any other `~` raises a syntax error —
whereas while the required-value buffer is the target every character,
`~` included, is appended unconditionally. -/
theorem C7_mute_marker (b : VarBuilder) :
    (b.target = AppendTarget.keyCharacters →
      ((b.keyChars = [] ∧ b.muted = false →
         b.append MUTE_OPTION = Except.ok { b with muted := true }) ∧
       (¬(b.keyChars = [] ∧ b.muted = false) →
         b.append MUTE_OPTION =
           Except.error ⟨"A mute symbol is only allowed in the beginning",
             Option.some (b.errorDetails (Option.some MUTE_OPTION))⟩))) ∧
    (∀ c : Char, b.target = AppendTarget.requiredValueCharacters →
      b.append c = Except.ok { b with rvChars := b.rvChars ++ [c] }) := by
  constructor
  · intro htgt
    constructor
    · rintro ⟨hkey, hmut⟩
      simp [VarBuilder.append, htgt, isVariableOption, VarBuilder.processOption,
        VarBuilder.muteOp, VarBuilder.inputChars, hkey, hmut]
    · intro hno
      have hno' : ¬(b.keyChars.length = 0 ∧ b.muted = false) := by
        rw [List.length_eq_zero]
        exact hno
      simp [VarBuilder.append, htgt, isVariableOption, VarBuilder.processOption,
        VarBuilder.muteOp, VarBuilder.inputChars, hno']
      intro hk
      cases hmut : b.muted with
      | true => rfl
      | false => exact absurd ⟨hk, hmut⟩ hno
  · intro c htgt
    simp [VarBuilder.append, htgt]

/-- Witness for C7: the fresh builder of `{` accepts a first `~`; the
already-muted builder of `{~` rejects a second `~`; the builder of
`{weather=hot` (targeting the required-value buffer) accepts `~` as
required-value text. -/
theorem C7_witness :
    (VarBuilder.init 0).append MUTE_OPTION =
      Except.ok { VarBuilder.init 0 with muted := true } ∧
    (⟨0, true, AppendTarget.keyCharacters, [], []⟩ : VarBuilder).append MUTE_OPTION =
      Except.error ⟨"A mute symbol is only allowed in the beginning",
        Option.some ((⟨0, true, AppendTarget.keyCharacters, [], []⟩ :
          VarBuilder).errorDetails (Option.some MUTE_OPTION))⟩ ∧
    exVarBuilder.append MUTE_OPTION =
      Except.ok { exVarBuilder with rvChars := exVarBuilder.rvChars ++ [MUTE_OPTION] } :=
  ⟨((C7_mute_marker (VarBuilder.init 0)).1 rfl).1 (by decide),
   ((C7_mute_marker ⟨0, true, AppendTarget.keyCharacters, [], []⟩).1 rfl).2 (by decide),
   (C7_mute_marker exVarBuilder).2 MUTE_OPTION rfl⟩

/-! ### The requirement traversal -/

theorem variableKeys_mk (it : Text) (si ei : Option Nat) (comps : ComponentList)
    (alt : OptionalTemplate) :
    (Template.mk it si ei comps alt).variableKeys =
      ⟨(comps.directVariables.map Variable.key).toFinset, comps.childrenOptional⟩ ::
        alt.alternativeKeys := by
  rw [Template.variableKeys.eq_def]

theorem alternativeKeys_none : (OptionalTemplate.none).alternativeKeys = [] := by
  rw [OptionalTemplate.alternativeKeys.eq_def]

theorem alternativeKeys_some (a : Template) :
    (OptionalTemplate.some a).alternativeKeys = a.variableKeys := by
  rw [OptionalTemplate.alternativeKeys.eq_def]

theorem childrenOptional_nil : (ComponentList.nil).childrenOptional = ∅ := by
  rw [ComponentList.childrenOptional.eq_def]

theorem childrenOptional_cons (c : Component) (rest : ComponentList) :
    (ComponentList.cons c rest).childrenOptional =
      c.componentOptional ∪ rest.childrenOptional := by
  rw [ComponentList.childrenOptional.eq_def]

theorem componentOptional_var (v : Variable) :
    (Component.var v).componentOptional = ∅ := by
  rw [Component.componentOptional.eq_def]

theorem componentOptional_tmpl (t : Template) :
    (Component.tmpl t).componentOptional = raoUnion t.variableKeys := by
  rw [Component.componentOptional.eq_def]

theorem chainNodes_mk (it : Text) (si ei : Option Nat) (comps : ComponentList)
    (alt : OptionalTemplate) :
    (Template.mk it si ei comps alt).chainNodes =
      Template.mk it si ei comps alt :: alt.chainNodesAlt := by
  rw [Template.chainNodes.eq_def]

theorem chainNodesAlt_none : (OptionalTemplate.none).chainNodesAlt = [] := by
  rw [OptionalTemplate.chainNodesAlt.eq_def]

theorem chainNodesAlt_some (a : Template) :
    (OptionalTemplate.some a).chainNodesAlt = a.chainNodes := by
  rw [OptionalTemplate.chainNodesAlt.eq_def]

mutual

/-- The traversal result is exactly one `nodeEntry` per alternative-chain
node, in chain order. -/
theorem variableKeys_eq_chainNodes (t : Template) :
    t.variableKeys = t.chainNodes.map Template.nodeEntry := by
  match t with
  | .mk it si ei comps alt =>
    rw [variableKeys_mk, chainNodes_mk, List.map_cons,
      alternativeKeys_eq_chainNodes alt]
    rfl

theorem alternativeKeys_eq_chainNodes (o : OptionalTemplate) :
    o.alternativeKeys = o.chainNodesAlt.map Template.nodeEntry := by
  match o with
  | .none => rw [alternativeKeys_none, chainNodesAlt_none]; rfl
  | .some a =>
    rw [alternativeKeys_some, chainNodesAlt_some]
    exact variableKeys_eq_chainNodes a

end

theorem mem_raoUnion_aux (k : Text) (es : List RequiredAndOptionalVariables) :
    ∀ acc : Finset Text,
      k ∈ es.foldl (fun acc e => acc ∪ e.required ∪ e.optional) acc ↔
        k ∈ acc ∨ ∃ e ∈ es, k ∈ e.required ∨ k ∈ e.optional := by
  induction es with
  | nil => intro acc; simp
  | cons e rest ih =>
    intro acc
    rw [List.foldl_cons, ih]
    simp only [Finset.mem_union, List.mem_cons]
    aesop

theorem mem_raoUnion (k : Text) (es : List RequiredAndOptionalVariables) :
    k ∈ raoUnion es ↔ ∃ e ∈ es, k ∈ e.required ∨ k ∈ e.optional := by
  rw [raoUnion, mem_raoUnion_aux]
  simp

/-- Membership in a block's optional set: exactly the keys appearing in the
required or optional set of any entry of any nested child template. -/
theorem mem_childrenOptional : ∀ (comps : ComponentList) (k : Text),
    k ∈ comps.childrenOptional ↔
      ∃ child ∈ comps.directTemplates,
        ∃ e ∈ child.variableKeys, k ∈ e.required ∨ k ∈ e.optional
  | .nil, k => by
    rw [childrenOptional_nil]
    simp [ComponentList.directTemplates]
  | .cons (.var v) rest, k => by
    rw [childrenOptional_cons, componentOptional_var]
    simp [mem_childrenOptional rest k, ComponentList.directTemplates]
  | .cons (.tmpl ct) rest, k => by
    rw [childrenOptional_cons, componentOptional_tmpl]
    simp only [Finset.mem_union, mem_raoUnion, mem_childrenOptional rest k,
      ComponentList.directTemplates, List.mem_cons]
    aesop

/-- Claim C5: the requirement traversal returns one entry per node of the
alternative chain, in chain order; each entry's required set is the set of
that node's direct-variable keys and its optional set is the union, over
its nested child templates, of both their required and optional sets; in
particular the spec's example template yields the single entry
`(required = {var_1}, optional = {var_2, var_3})`. -/
theorem C5_requirement_traversal :
    (∀ t : Template, t.variableKeys = t.chainNodes.map Template.nodeEntry) ∧
    (∀ t : Template, t.nodeEntry.required =
      (t.components.directVariables.map Variable.key).toFinset) ∧
    (∀ (t : Template) (k : Text),
      k ∈ t.nodeEntry.optional ↔
        ∃ child ∈ t.components.directTemplates,
          ∃ e ∈ child.variableKeys, k ∈ e.required ∨ k ∈ e.optional) ∧
    (parseTemplate tC5text).map Template.variableKeys =
      Except.ok [⟨{"var_1".toList}, {"var_2".toList, "var_3".toList}⟩] := by
  refine ⟨variableKeys_eq_chainNodes, fun t => rfl,
    fun t k => mem_childrenOptional t.components k, ?_⟩
  rw [show parseTemplate tC5text = Except.ok tC5 from rfl]
  show Except.ok tC5.variableKeys = _
  rw [show tC5.variableKeys =
    [⟨{"var_1".toList}, {"var_2".toList, "var_3".toList}⟩] from by decide]

/-! ### Required and optional sets can overlap -/

/-- Claim C10: the required and optional sets of a block's entry need not be
disjoint — a key that is both a direct variable of the block and appears
inside a nested child block is a member of both sets of the head entry of
`variableKeys`. -/
theorem C10_required_optional_overlap (t : Template) (k : Text)
    (h1 : k ∈ t.components.directVariables.map Variable.key)
    (h2 : k ∈ t.components.childrenOptional) :
    ∃ e, t.variableKeys.head? = Option.some e ∧ k ∈ e.required ∧ k ∈ e.optional := by
  cases t with
  | mk it si ei comps alt =>
    rw [variableKeys_mk]
    exact ⟨_, rfl, by simpa [Template.components] using List.mem_toFinset.mpr h1,
      by simpa [Template.components] using h2⟩

/-- Witness for C10 at the template `{a} [x {a}]`: the key `a` is direct and
nested, and lands in both the required and the optional set. -/
theorem C10_witness :
    parseTemplate tC10text = Except.ok tC10 ∧
    ∃ e, tC10.variableKeys.head? = Option.some e ∧
      ['a'] ∈ e.required ∧ ['a'] ∈ e.optional :=
  ⟨rfl, C10_required_optional_overlap tC10 ['a'] (by decide) (by decide)⟩

/-! ### Syntax errors and their positions -/

/-- Counterexample to claim C6: parsing `{}` raises the syntax error
`Variable key can not be empty` whose details are `none` — it carries
neither the scanned text nor any character offset, let alone a valid
1-based one. -/
theorem C6_counterexample :
    parseTemplate [VARIABLE_OPENING, VARIABLE_CLOSING] =
      Except.error (ParseError.syntaxError
        ⟨"Variable key can not be empty", Option.none⟩) := rfl

/-- Claim C6 as amended: each of the seven inputs raises a syntax error, but
only `{~~x}` (offset 3, over the reconstructed prefix `{~~`) and the
unclosed `{` and `[` (offset 1, over the full text) carry position
details; the errors for `{}`, `{=value}`, the empty template and `[]`
carry only a message, with no offset and no text. -/
theorem C6_amended :
    parseTemplate [VARIABLE_OPENING, VARIABLE_CLOSING] =
      Except.error (ParseError.syntaxError
        ⟨"Variable key can not be empty", Option.none⟩) ∧
    parseTemplate ('{' :: '=' :: "value".toList ++ ['}']) =
      Except.error (ParseError.syntaxError
        ⟨"Variable key can not be empty", Option.none⟩) ∧
    parseTemplate ['{', '~', '~', 'x', '}'] =
      Except.error (ParseError.syntaxError
        ⟨"A mute symbol is only allowed in the beginning",
         Option.some ⟨['{', '~', '~'], 3⟩⟩) ∧
    parseTemplate ['{'] =
      Except.error (ParseError.syntaxError
        ⟨"Variable not closed", Option.some ⟨['{'], 1⟩⟩) ∧
    parseTemplate ['['] =
      Except.error (ParseError.syntaxError
        ⟨"Template not closed", Option.some ⟨['['], 1⟩⟩) ∧
    parseTemplate [] =
      Except.error (ParseError.syntaxError
        ⟨"A template can not be empty", Option.none⟩) ∧
    parseTemplate ['[', ']'] =
      Except.error (ParseError.syntaxError
        ⟨"A template can not be empty", Option.none⟩) :=
  ⟨rfl, rfl, rfl, rfl, rfl, rfl, rfl⟩

/-! ### Requirement introspection is idempotent and non-mutating -/

/-- Claim C8: computing `Prompt.variables` twice returns equal results, and
the computation leaves the parsed template untouched (the returned prompt
differs at most in the `cached_property` slot). -/
theorem C8_variables_idempotent_pure (p : Prompt) :
    (p.variables).1 = ((p.variables).2.variables).1 ∧
    (p.variables).2.template = p.template ∧
    ((p.variables).2.variables).2.template = p.template := by
  cases p with
  | mk t cache => cases cache <;> exact ⟨rfl, rfl, rfl⟩

/-! ### The facade mutates the caller's parameter dict in place -/

theorem validateItems_ok_map : ∀ (d d' : PyDict), validateItems d = Except.ok d' →
    d' = d.map (fun kv => (kv.1, convertValue kv.2))
  | [], d', h => by
    simp only [validateItems] at h
    cases h
    rfl
  | (key, value) :: rest, d', h => by
    cases key <;> simp only [validateItems] at h <;>
      [skip; cases h; cases h; cases h]
    cases value with
    | str s =>
      cases hr : validateItems rest with
      | error e => rw [hr] at h; cases h
      | ok r =>
        rw [hr] at h
        cases h
        simp [convertValue, validateItems_ok_map rest r hr]
    | int n =>
      cases hr : validateItems rest with
      | error e => rw [hr] at h; cases h
      | ok r =>
        rw [hr] at h
        cases h
        simp [convertValue, validateItems_ok_map rest r hr]
    | float fr =>
      cases hr : validateItems rest with
      | error e => rw [hr] at h; cases h
      | ok r =>
        rw [hr] at h
        cases h
        simp [convertValue, validateItems_ok_map rest r hr]
    | other => cases h

/-- A dict with an int or float value is visibly changed by the conversion. -/
theorem map_convert_ne_of_mem : ∀ d : PyDict,
    (∃ kv ∈ d, (∃ n, kv.2 = PyValue.int n) ∨ (∃ r, kv.2 = PyValue.float r)) →
    d.map (fun kv => (kv.1, convertValue kv.2)) ≠ d
  | [], h => by rintro _; obtain ⟨kv, hmem, _⟩ := h; cases hmem
  | hd :: rest, h => by
    intro hEq
    obtain ⟨kv, hmem, hval⟩ := h
    rw [List.map_cons, List.cons_eq_cons] at hEq
    rcases List.mem_cons.mp hmem with hkv | hkv
    · subst hkv
      rcases hval with ⟨n, hn⟩ | ⟨r, hr⟩
      · rw [Prod.ext_iff] at hEq
        have := hEq.1.2
        rw [hn] at this
        simp [convertValue] at this
      · rw [Prod.ext_iff] at hEq
        have := hEq.1.2
        rw [hr] at this
        simp [convertValue] at this
    · exact map_convert_ne_of_mem rest ⟨kv, hkv, hval⟩ hEq.2

/-- Claim C9: validating the parameters of a facade `substitute` call
mutates the caller-supplied dict in place — the store is updated at the
SAME address and that same address (the same object, not a copy) is what
the core reads its string-to-string mapping from; every int/float value
is replaced by its string representation, visibly to the caller. -/
theorem C9_params_dict_mutated_in_place (addr : Nat) (store : Store) (d d' : PyDict)
    (hget : store.get? addr = Option.some d)
    (hval : validateItems d = Except.ok d') :
    validateParams addr store = Except.ok (addr, store.set addr d') ∧
    d' = d.map (fun kv => (kv.1, convertValue kv.2)) ∧
    ((∃ kv ∈ d, (∃ n, kv.2 = PyValue.int n) ∨ (∃ r, kv.2 = PyValue.float r)) →
      d' ≠ d) ∧
    (∀ (p : Prompt) (pp : Bool), ∃ result,
      p.template.substitute (toParams d') = Except.ok result ∧
      p.substituteFacade addr store pp =
        Except.ok ((if pp then joinWithSpace (pySplit result) else result),
                   store.set addr d')) := by
  obtain ⟨hlt, -⟩ := List.get?_eq_some.mp hget
  have hget' : store[addr]? = Option.some d := by
    rw [← List.get?_eq_getElem?]; exact hget
  refine ⟨by simp [validateParams, hget', hval], validateItems_ok_map d d' hval,
    fun h => by rw [validateItems_ok_map d d' hval]; exact map_convert_ne_of_mem d h,
    fun p pp => ?_⟩
  obtain ⟨result, hres⟩ := substitute_isOk p.template (toParams d')
  refine ⟨result, hres, ?_⟩
  simp [Prompt.substituteFacade, validateParams, hget', hval,
    List.getElem?_set_self hlt, hres]

/-- Witness for C9: a dict holding `x` bound to the int `5` is converted in
place (same address `0`) to `x` bound to the string `5`, the converted
dict differs from the original, and the core substitution is run on the
converted mapping. -/
theorem C9_witness :
    validateParams 0 [[(PyValue.str ['x'], PyValue.int 5)]] =
      Except.ok (0, [[(PyValue.str ['x'], PyValue.str ['5'])]]) ∧
    ([(PyValue.str ['x'], PyValue.str ['5'])] : PyDict) ≠
      [(PyValue.str ['x'], PyValue.int 5)] ∧
    ∃ result,
      (Template.mk ['h', 'i'] Option.none Option.none ComponentList.nil
        OptionalTemplate.none).substitute
          (toParams [(PyValue.str ['x'], PyValue.str ['5'])]) = Except.ok result ∧
      (Prompt.mk (Template.mk ['h', 'i'] Option.none Option.none ComponentList.nil
        OptionalTemplate.none) Option.none).substituteFacade 0
          [[(PyValue.str ['x'], PyValue.int 5)]] false =
        Except.ok ((if false then joinWithSpace (pySplit result) else result),
                   [[(PyValue.str ['x'], PyValue.str ['5'])]]) :=
  ⟨(C9_params_dict_mutated_in_place 0 [[(PyValue.str ['x'], PyValue.int 5)]]
      [(PyValue.str ['x'], PyValue.int 5)] [(PyValue.str ['x'], PyValue.str ['5'])]
      rfl rfl).1,
   (C9_params_dict_mutated_in_place 0 [[(PyValue.str ['x'], PyValue.int 5)]]
      [(PyValue.str ['x'], PyValue.int 5)] [(PyValue.str ['x'], PyValue.str ['5'])]
      rfl rfl).2.2.1 ⟨(PyValue.str ['x'], PyValue.int 5), by decide, Or.inl ⟨5, rfl⟩⟩,
   (C9_params_dict_mutated_in_place 0 [[(PyValue.str ['x'], PyValue.int 5)]]
      [(PyValue.str ['x'], PyValue.int 5)] [(PyValue.str ['x'], PyValue.str ['5'])]
      rfl rfl).2.2.2
     (Prompt.mk (Template.mk ['h', 'i'] Option.none Option.none ComponentList.nil
       OptionalTemplate.none) Option.none) false⟩
